import Mathlib

/-!
# Verification of the link-sharing client's cache-synchronization logic

Shallow embedding of `src/src/App.tsx` (the React client of the community
link-sharing application) together with the remote store behaviour implied by
the SQL schema (`favorites` has `UNIQUE(user_id, link_id)`; a violated unique
constraint is reported with Postgres error code `23505`).

The React component's ambient state (`session`, `links`, `favorites`,
`loading`, `showDelayedContent`, `newLink`) becomes an explicit `AppState`
record; the remote Supabase tables become a `RemoteStore` record; each handler
(`fetchLinks`, `fetchFavorites`, `handleSignOut`, `addLink`, `deleteLink`,
`toggleFavorite`, and the `onAuthStateChange` callback) becomes a state
transition that additionally reports the list of remote calls it issued
(`RemoteOp`) and the list of toast notifications it produced (`Toast`).
Transport success/failure of each remote call is an explicit Boolean
parameter; uniqueness-constraint failures are derived from the store contents,
matching the schema. Server-assigned fields (row ids, `created_at`) are
explicit parameters.
-/

namespace LinkApp

/-- The authenticated identity: `session.user.id` and `session.user.email`. -/
structure Session where
  userId : String
  email : String
deriving DecidableEq, Repr

/-- The client-side `Link` row type of `App.tsx` (`created_at` modelled as a
numeric timestamp so that the server's descending order is arithmetic). -/
structure Link where
  id : String
  name : String
  url : String
  creator_email : String
  created_at : Nat
deriving DecidableEq, Repr

/-- The client-side `Favorite` row type of `App.tsx`. -/
structure Favorite where
  id : String
  link_id : String
  user_id : String
deriving DecidableEq, Repr

/-- A toast notification: `toast.success msg` or `toast.error msg`. -/
inductive Toast where
  | success (msg : String)
  | err (msg : String)
deriving DecidableEq, Repr

/-- Whether a toast was emitted through the `toast.error` channel. -/
def Toast.isErr : Toast → Bool
  | .err _ => true
  | .success _ => false

/-- A network call issued against the remote store. -/
inductive RemoteOp where
  | selectLinks
  | selectFavorites (userId : String)
  | insertLink (name url creatorEmail : String)
  | deleteLinkRow (id : String)
  | selectFavorite (linkId userId : String)
  | insertFavorite (linkId userId : String)
  | deleteFavorite (linkId userId : String)
deriving DecidableEq, Repr

/-- The React component's mutable state, made explicit. -/
structure AppState where
  session : Option Session
  links : List Link
  favorites : List Favorite
  loading : Bool
  showDelayedContent : Bool
  newLink : String × String
deriving DecidableEq, Repr

/-- The remote store's two tables. -/
structure RemoteStore where
  links : List Link
  favorites : List Favorite
deriving DecidableEq, Repr

/-- `fav.link_id === linkId`: the predicate `toggleFavorite` scans the local
cache with, and by which the local cache is filtered on unfavorite. -/
def linkMatch (linkId : String) (f : Favorite) : Bool :=
  f.link_id == linkId

/-- `{ link_id: linkId, user_id: userId }`: the match predicate used for the
remote point lookup, the remote delete, and the `UNIQUE(user_id, link_id)`
constraint. -/
def pairMatch (linkId userId : String) (f : Favorite) : Bool :=
  f.link_id == linkId && f.user_id == userId

/-- Descending `created_at` order: the server-side
`.order('created_at', { ascending: false })`. -/
def linkDesc (a b : Link) : Prop :=
  b.created_at ≤ a.created_at

instance : DecidableRel linkDesc := fun a b => Nat.decLe b.created_at a.created_at

/-- The row set the server returns for
`from('links').select('*').order('created_at', { ascending: false })`. -/
def fetchLinksResult (store : RemoteStore) : List Link :=
  List.insertionSort linkDesc store.links

/-- `fetchLinks` (App.tsx lines 61–75): on success replaces the link cache
with the server-ordered rows; on failure toasts `'Error fetching links'` and
leaves the cache alone; either way the `finally` block clears `loading`. -/
def fetchLinks (st : AppState) (store : RemoteStore) (ok : Bool) :
    AppState × List RemoteOp × List Toast :=
  if ok then
    ({ st with links := fetchLinksResult store, loading := false },
     [.selectLinks], [])
  else
    ({ st with loading := false },
     [.selectLinks], [Toast.err "Error fetching links"])

/-- `fetchFavorites` (App.tsx lines 77–91): no-op without a session; on
success replaces the favorites cache with the rows whose `user_id` equals the
session user's id; on failure toasts and leaves the cache alone. -/
def fetchFavorites (st : AppState) (store : RemoteStore) (ok : Bool) :
    AppState × List RemoteOp × List Toast :=
  match st.session with
  | none => (st, [], [])
  | some s =>
    if ok then
      ({ st with favorites := store.favorites.filter (fun f => f.user_id == s.userId) },
       [.selectFavorites s.userId], [])
    else
      (st, [.selectFavorites s.userId], [Toast.err "Error fetching favorites"])

/-- `handleSignOut` (App.tsx lines 113–119) composed with the
`onAuthStateChange` notification that `supabase.auth.signOut()` resolves into
(lines 43–49, with a `null` session, which only sets `session`): the session
becomes absent and both caches are cleared unconditionally. -/
def handleSignOut (st : AppState) : AppState × List Toast :=
  ({ st with session := none, links := [], favorites := [],
             showDelayedContent := true },
   [Toast.success "Signed out successfully"])

/-- `addLink` (App.tsx lines 121–145): rejected locally with
`'Please sign in first'` when no session; otherwise inserts a row (the server
assigns `id` and `created_at`, here `serverId`/`serverTime`); on
acknowledgment toasts success, clears the input fields, and triggers a full
`fetchLinks()`; on insert failure toasts `'Error adding link'`. -/
def addLink (st : AppState) (store : RemoteStore) (name url : String)
    (insertOk : Bool) (serverId : String) (serverTime : Nat) (fetchOk : Bool) :
    AppState × RemoteStore × List RemoteOp × List Toast :=
  match st.session with
  | none => (st, store, [], [Toast.err "Please sign in first"])
  | some s =>
    if insertOk then
      let row : Link := ⟨serverId, name, url, s.email, serverTime⟩
      let store' : RemoteStore := { store with links := store.links ++ [row] }
      let st1 : AppState := { st with newLink := ("", "") }
      let r := fetchLinks st1 store' fetchOk
      (r.1, store', .insertLink name url s.email :: r.2.1,
       Toast.success "Link added successfully!" :: r.2.2)
    else
      (st, store, [.insertLink name url s.email], [Toast.err "Error adding link"])

/-- `deleteLink` (App.tsx lines 147–161): gated locally on
`session?.user?.email === creatorEmail`; a failed gate toasts
`'You can only delete your own links'` and issues no remote call; otherwise
issues the remote delete and on success removes the row from the local cache
by id. -/
def deleteLink (st : AppState) (store : RemoteStore) (id creatorEmail : String)
    (ok : Bool) : AppState × RemoteStore × List RemoteOp × List Toast :=
  if st.session.map Session.email ≠ some creatorEmail then
    (st, store, [], [Toast.err "You can only delete your own links"])
  else
    if ok then
      ({ st with links := st.links.filter (fun l => !(l.id == id)) },
       { store with links := store.links.filter (fun l => !(l.id == id)) },
       [.deleteLinkRow id], [Toast.success "Link deleted successfully!"])
    else
      (st, store, [.deleteLinkRow id], [Toast.err "Error deleting link"])

/-- Transport outcomes for the up-to-three remote calls a single
`toggleFavorite` run can issue. A `false` field means that call fails with a
non-23505 error; the 23505 uniqueness violation itself is derived from the
store contents. -/
structure ToggleOutcome where
  deleteOk : Bool
  lookupOk : Bool
  insertOk : Bool
deriving DecidableEq, Repr

/-- All remote calls succeed at transport level. -/
def okOutcome : ToggleOutcome := ⟨true, true, true⟩

/-- `toggleFavorite` (App.tsx lines 163–213).

* No session: toast `'Please sign in first'`, nothing else.
* Local cache says favorited (`favorites.some(fav => fav.link_id === linkId)`):
  remote delete matched on `(link_id, user_id)`; on success filter the local
  cache by `link_id` and toast success; on failure the catch block toasts the
  generic message (a delete cannot raise 23505).
* Local cache says not favorited: defensive point lookup for the
  `(link_id, user_id)` row (its error is discarded — a failed lookup behaves
  like an empty result). Only `if (!existingFavorite)` does it insert: the
  server rejects with code 23505 when a row with that `(user_id, link_id)`
  already exists (the schema's unique constraint), which the catch block
  turns into `toast.error('Already in favorites')`; a transport failure is
  caught as the generic `'Error updating favorites'`; on success the returned
  row is appended to the local cache. When the lookup found a row, the branch
  body is skipped entirely: no insert, no cache change, no toast. -/
def toggleFavorite (st : AppState) (store : RemoteStore) (linkId : String)
    (oc : ToggleOutcome) (freshId : String) :
    AppState × RemoteStore × List RemoteOp × List Toast :=
  match st.session with
  | none => (st, store, [], [Toast.err "Please sign in first"])
  | some s =>
    if st.favorites.any (linkMatch linkId) then
      if oc.deleteOk then
        ({ st with favorites := st.favorites.filter (fun fav => !(linkMatch linkId fav)) },
         { store with favorites := store.favorites.filter (fun f => !(pairMatch linkId s.userId f)) },
         [.deleteFavorite linkId s.userId],
         [Toast.success "Removed from favorites"])
      else
        (st, store, [.deleteFavorite linkId s.userId],
         [Toast.err "Error updating favorites"])
    else
      let existing : Option Favorite :=
        if oc.lookupOk then store.favorites.find? (pairMatch linkId s.userId) else none
      if existing.isNone then
        if oc.insertOk then
          if store.favorites.any (pairMatch linkId s.userId) then
            (st, store,
             [.selectFavorite linkId s.userId, .insertFavorite linkId s.userId],
             [Toast.err "Already in favorites"])
          else
            let row : Favorite := ⟨freshId, linkId, s.userId⟩
            ({ st with favorites := st.favorites ++ [row] },
             { store with favorites := store.favorites ++ [row] },
             [.selectFavorite linkId s.userId, .insertFavorite linkId s.userId],
             [Toast.success "Added to favorites"])
        else
          (st, store,
           [.selectFavorite linkId s.userId, .insertFavorite linkId s.userId],
           [Toast.err "Error updating favorites"])
      else
        (st, store, [.selectFavorite linkId s.userId], [])

/-- The `onAuthStateChange` subscription callback (App.tsx lines 41–49):
stores the new session and, only when one is present, invokes `fetchLinks()`
and `fetchFavorites()`. The subscription is registered once, in a `useEffect`
with empty dependencies (lines 32–59), so the callback permanently holds the
first render's `fetchFavorites`, whose closed-over `session` is the initial
`null`; its `if (!session) return` guard (line 78) therefore fires on every
invocation, and the favorites refresh is a no-op: no remote call, no toast,
no cache change (`fetchFavorites` applied to an absent session returns its
state unchanged with empty op and toast lists — see
`fetchFavorites_no_session`). Only the link refresh takes effect, since
`fetchLinks` reads no component state. When the new session is absent the
callback does nothing beyond recording it — in particular it does not touch
either cache. -/
def onAuthChange (st : AppState) (store : RemoteStore) (s? : Option Session)
    (linksOk : Bool) : AppState × List RemoteOp × List Toast :=
  match s? with
  | some s =>
    let st1 : AppState := { st with session := some s }
    let r1 := fetchLinks st1 store linksOk
    (r1.1, r1.2.1, r1.2.2)
  | none => ({ st with session := none }, [], [])

/-- The synchronization invariant for one `(user, link)` pair: the local
cache holds an entry for the pair exactly when the remote store does, and the
remote store holds at most one row for the pair. -/
def FavSync (st : AppState) (store : RemoteStore) (linkId userId : String) : Prop :=
  st.favorites.any (pairMatch linkId userId)
      = store.favorites.any (pairMatch linkId userId)
    ∧ store.favorites.countP (pairMatch linkId userId) ≤ 1

instance (st : AppState) (store : RemoteStore) (linkId userId : String) :
    Decidable (FavSync st store linkId userId) :=
  inferInstanceAs (Decidable (_ ∧ _))

/-- A finished sequence of `toggleFavorite` calls for one link: each step
carries its transport outcomes and the server-assigned id of a potential
insert, and is fully awaited before the next begins. -/
def toggleRun (linkId : String) (w : AppState × RemoteStore)
    (steps : List (ToggleOutcome × String)) : AppState × RemoteStore :=
  steps.foldl (fun w p =>
    let r := toggleFavorite w.1 w.2 linkId p.1 p.2
    (r.1, r.2.1)) w

/-! ## General list lemmas used by the synchronization proofs -/

theorem any_filter_not {α : Type} (l : List α) (p q : α → Bool)
    (himp : ∀ a, q a = true → p a = true) :
    (l.filter (fun a => !(p a))).any q = false := by
  induction l with
  | nil => rfl
  | cons a l ih =>
    cases hp : p a with
    | true => simpa [List.filter_cons, hp] using ih
    | false =>
      have hq : q a = false := by
        cases hqa : q a
        · rfl
        · rw [himp a hqa] at hp; cases hp
      simp [List.filter_cons, hp, hq, ih]

theorem countP_filter_not {α : Type} (l : List α) (p q : α → Bool)
    (himp : ∀ a, q a = true → p a = true) :
    (l.filter (fun a => !(p a))).countP q = 0 := by
  induction l with
  | nil => rfl
  | cons a l ih =>
    cases hp : p a with
    | true => simpa [List.filter_cons, hp] using ih
    | false =>
      have hq : q a = false := by
        cases hqa : q a
        · rfl
        · rw [himp a hqa] at hp; cases hp
      simp [List.filter_cons, hp, List.countP_cons, hq, ih]

theorem find?_none_iff_any_false {α : Type} (l : List α) (p : α → Bool) :
    l.find? p = none ↔ l.any p = false := by
  induction l with
  | nil => simp
  | cons a l ih =>
    cases hp : p a with
    | true => simp [List.find?, hp]
    | false => simp [List.find?, hp, ih]

theorem countP_eq_zero_of_any_false {α : Type} (l : List α) (p : α → Bool)
    (h : l.any p = false) : l.countP p = 0 := by
  induction l with
  | nil => rfl
  | cons a l ih =>
    simp only [List.any_cons] at h
    cases hp : p a with
    | true => rw [hp] at h; simp at h
    | false =>
      rw [hp] at h
      simp only [Bool.false_or] at h
      simp [List.countP_cons, hp, ih h]

theorem pairMatch_imp_linkMatch (linkId userId : String) (f : Favorite)
    (h : pairMatch linkId userId f = true) : linkMatch linkId f = true := by
  simp only [pairMatch, Bool.and_eq_true] at h
  exact h.1

/-! ## Properties of `toggleFavorite` -/

theorem toggleFavorite_session (st : AppState) (store : RemoteStore)
    (linkId : String) (oc : ToggleOutcome) (fid : String) :
    (toggleFavorite st store linkId oc fid).1.session = st.session := by
  unfold toggleFavorite
  cases hs : st.session with
  | none => exact hs
  | some s =>
    dsimp only
    by_cases h1 : st.favorites.any (linkMatch linkId) <;>
      simp only [h1, Bool.false_eq_true, ite_false, ite_true]
    · by_cases h2 : oc.deleteOk <;> simp [h2, hs]
    · by_cases h2 : (if oc.lookupOk then store.favorites.find? (pairMatch linkId s.userId) else none).isNone <;>
        simp only [h2, Bool.false_eq_true, ite_false, ite_true]
      · by_cases h3 : oc.insertOk <;>
          simp only [h3, Bool.false_eq_true, ite_false, ite_true]
        · by_cases h4 : store.favorites.any (pairMatch linkId s.userId) <;> simp [h4, hs]
        · exact hs
      · exact hs

theorem FavSync_toggleFavorite (st : AppState) (store : RemoteStore) (s : Session)
    (linkId : String) (oc : ToggleOutcome) (fid : String)
    (hs : st.session = some s)
    (h : FavSync st store linkId s.userId) :
    FavSync (toggleFavorite st store linkId oc fid).1
            (toggleFavorite st store linkId oc fid).2.1 linkId s.userId := by
  unfold toggleFavorite
  rw [hs]
  dsimp only
  by_cases h1 : st.favorites.any (linkMatch linkId) <;>
    simp only [h1, Bool.false_eq_true, ite_false, ite_true]
  · by_cases h2 : oc.deleteOk <;>
      simp only [h2, Bool.false_eq_true, ite_false, ite_true]
    · refine ⟨?_, ?_⟩
      · show (st.favorites.filter (fun fav => !(linkMatch linkId fav))).any
              (pairMatch linkId s.userId)
            = (store.favorites.filter (fun f => !(pairMatch linkId s.userId f))).any
              (pairMatch linkId s.userId)
        rw [any_filter_not st.favorites (linkMatch linkId) (pairMatch linkId s.userId)
              (pairMatch_imp_linkMatch linkId s.userId),
            any_filter_not store.favorites (pairMatch linkId s.userId)
              (pairMatch linkId s.userId) (fun _ ha => ha)]
      · show (store.favorites.filter (fun f => !(pairMatch linkId s.userId f))).countP
              (pairMatch linkId s.userId) ≤ 1
        rw [countP_filter_not store.favorites (pairMatch linkId s.userId)
              (pairMatch linkId s.userId) (fun _ ha => ha)]
        exact Nat.zero_le 1
    · exact h
  · by_cases h2 : (if oc.lookupOk then store.favorites.find? (pairMatch linkId s.userId) else none).isNone <;>
      simp only [h2, Bool.false_eq_true, ite_false, ite_true]
    · by_cases h3 : oc.insertOk <;>
        simp only [h3, Bool.false_eq_true, ite_false, ite_true]
      · by_cases h4 : store.favorites.any (pairMatch linkId s.userId) <;>
          simp only [h4, Bool.false_eq_true, ite_false, ite_true]
        · exact h
        · refine ⟨?_, ?_⟩
          · show (st.favorites ++ [Favorite.mk fid linkId s.userId]).any (pairMatch linkId s.userId)
                = (store.favorites ++ [Favorite.mk fid linkId s.userId]).any (pairMatch linkId s.userId)
            simp [List.any_append, pairMatch]
          · show (store.favorites ++ [Favorite.mk fid linkId s.userId]).countP
                  (pairMatch linkId s.userId) ≤ 1
            rw [List.countP_append,
                countP_eq_zero_of_any_false store.favorites _ (by simpa using h4)]
            simp [List.countP_cons, pairMatch]
      · exact h
    · exact h

/-- C1: for every finished sequence of awaited `toggleFavorite` calls for a
given `(user, link)` pair — each call with arbitrary transport outcomes and
server-assigned ids — started from a state where the local favorites cache
agrees with the remote store on the pair and the remote store holds at most
one row for it (e.g. fresh empty caches), the local cache contains an entry
for the pair iff the remote store does, and the remote store holds at most
one favorite row for the pair. -/
theorem toggleFavorite_sync_invariant (linkId : String) (s : Session)
    (steps : List (ToggleOutcome × String)) (st : AppState) (store : RemoteStore)
    (hs : st.session = some s) (h : FavSync st store linkId s.userId) :
    FavSync (toggleRun linkId (st, store) steps).1
            (toggleRun linkId (st, store) steps).2 linkId s.userId := by
  induction steps generalizing st store with
  | nil => exact h
  | cons p steps ih =>
    have hsess := toggleFavorite_session st store linkId p.1 p.2
    rw [hs] at hsess
    have h1 := FavSync_toggleFavorite st store s linkId p.1 p.2 hs h
    exact ih _ _ hsess h1

theorem toggleFavorite_sync_invariant_witness :
    FavSync
      (toggleRun "l1"
        (⟨some ⟨"u1", "u1@example.com"⟩, [], [], false, false, ("", "")⟩, ⟨[], []⟩)
        [(okOutcome, "f1"), (⟨false, true, true⟩, "f2"), (okOutcome, "f3")]).1
      (toggleRun "l1"
        (⟨some ⟨"u1", "u1@example.com"⟩, [], [], false, false, ("", "")⟩, ⟨[], []⟩)
        [(okOutcome, "f1"), (⟨false, true, true⟩, "f2"), (okOutcome, "f3")]).2
      "l1" "u1" :=
  toggleFavorite_sync_invariant "l1" ⟨"u1", "u1@example.com"⟩ _ _ _ rfl (by decide)

/-- C2: starting from a state where the `(user, link)` pair is unfavorited in
both the local cache and the remote store, two awaited `toggleFavorite`
calls with all remote operations succeeding leave zero cache entries for the
pair both locally and remotely. -/
theorem toggleFavorite_twice_roundtrip (st : AppState) (store : RemoteStore)
    (s : Session) (linkId f1 f2 : String)
    (hs : st.session = some s)
    (hl : st.favorites.any (linkMatch linkId) = false)
    (hr : store.favorites.any (pairMatch linkId s.userId) = false) :
    ((toggleFavorite (toggleFavorite st store linkId okOutcome f1).1
        (toggleFavorite st store linkId okOutcome f1).2.1
        linkId okOutcome f2).1.favorites.countP (pairMatch linkId s.userId) = 0)
    ∧ ((toggleFavorite (toggleFavorite st store linkId okOutcome f1).1
        (toggleFavorite st store linkId okOutcome f1).2.1
        linkId okOutcome f2).2.1.favorites.countP (pairMatch linkId s.userId) = 0) := by
  have hfind : store.favorites.find? (pairMatch linkId s.userId) = none :=
    (find?_none_iff_any_false _ _).mpr hr
  have e1 : toggleFavorite st store linkId okOutcome f1
      = ({ st with favorites := st.favorites ++ [Favorite.mk f1 linkId s.userId] },
         { store with favorites := store.favorites ++ [Favorite.mk f1 linkId s.userId] },
         [.selectFavorite linkId s.userId, .insertFavorite linkId s.userId],
         [Toast.success "Added to favorites"]) := by
    unfold toggleFavorite
    rw [hs]
    simp [okOutcome, hl, hfind, hr]
  rw [e1]
  have e2 : toggleFavorite
      { st with favorites := st.favorites ++ [Favorite.mk f1 linkId s.userId] }
      { store with favorites := store.favorites ++ [Favorite.mk f1 linkId s.userId] }
      linkId okOutcome f2
      = ({ st with favorites :=
              (st.favorites ++ [Favorite.mk f1 linkId s.userId]).filter (fun fav => !(linkMatch linkId fav)) },
         { store with favorites :=
              (store.favorites ++ [Favorite.mk f1 linkId s.userId]).filter (fun f => !(pairMatch linkId s.userId f)) },
         [.deleteFavorite linkId s.userId],
         [Toast.success "Removed from favorites"]) := by
    unfold toggleFavorite
    simp [hs, okOutcome, List.any_append, linkMatch]
  rw [e2]
  refine ⟨?_, ?_⟩
  · show ((st.favorites ++ [Favorite.mk f1 linkId s.userId]).filter
        (fun fav => !(linkMatch linkId fav))).countP (pairMatch linkId s.userId) = 0
    exact countP_filter_not _ _ _ (pairMatch_imp_linkMatch linkId s.userId)
  · show ((store.favorites ++ [Favorite.mk f1 linkId s.userId]).filter
        (fun f => !(pairMatch linkId s.userId f))).countP (pairMatch linkId s.userId) = 0
    exact countP_filter_not _ _ _ (fun _ ha => ha)

theorem toggleFavorite_twice_roundtrip_witness :
    ((toggleFavorite
        (toggleFavorite ⟨some ⟨"u1", "u1@example.com"⟩, [], [], false, false, ("", "")⟩
          ⟨[], []⟩ "l1" okOutcome "f1").1
        (toggleFavorite ⟨some ⟨"u1", "u1@example.com"⟩, [], [], false, false, ("", "")⟩
          ⟨[], []⟩ "l1" okOutcome "f1").2.1
        "l1" okOutcome "f2").1.favorites.countP (pairMatch "l1" "u1") = 0)
    ∧ ((toggleFavorite
        (toggleFavorite ⟨some ⟨"u1", "u1@example.com"⟩, [], [], false, false, ("", "")⟩
          ⟨[], []⟩ "l1" okOutcome "f1").1
        (toggleFavorite ⟨some ⟨"u1", "u1@example.com"⟩, [], [], false, false, ("", "")⟩
          ⟨[], []⟩ "l1" okOutcome "f1").2.1
        "l1" okOutcome "f2").2.1.favorites.countP (pairMatch "l1" "u1") = 0) :=
  toggleFavorite_twice_roundtrip _ _ ⟨"u1", "u1@example.com"⟩ "l1" "f1" "f2"
    rfl (by decide) (by decide)

/-- C10: in `toggleFavorite`'s not-favorited branch, when the defensive point
lookup finds an existing remote `(link_id, user_id)` row, the call completes
without an insert, without touching the local cache, and without any toast;
the local cache still reports the link unfavorited while the remote store
still holds the row. -/
theorem toggleFavorite_lookup_hit_noop (st : AppState) (store : RemoteStore)
    (s : Session) (linkId : String) (oc : ToggleOutcome) (fid : String)
    (hs : st.session = some s)
    (hl : st.favorites.any (linkMatch linkId) = false)
    (hlk : oc.lookupOk = true)
    (hex : store.favorites.any (pairMatch linkId s.userId) = true) :
    toggleFavorite st store linkId oc fid
      = (st, store, [RemoteOp.selectFavorite linkId s.userId], [])
    ∧ st.favorites.any (linkMatch linkId) = false
    ∧ store.favorites.any (pairMatch linkId s.userId) = true := by
  refine ⟨?_, hl, hex⟩
  have hnf : (store.favorites.find? (pairMatch linkId s.userId)).isNone = false := by
    cases hf : store.favorites.find? (pairMatch linkId s.userId)
    · rw [(find?_none_iff_any_false _ _).mp hf] at hex; cases hex
    · rfl
  unfold toggleFavorite
  rw [hs]
  simp [hl, hlk, hnf]

theorem toggleFavorite_lookup_hit_noop_witness :
    toggleFavorite ⟨some ⟨"u1", "u1@example.com"⟩, [], [], false, false, ("", "")⟩
        ⟨[], [⟨"fav1", "l1", "u1"⟩]⟩ "l1" okOutcome "f9"
      = (⟨some ⟨"u1", "u1@example.com"⟩, [], [], false, false, ("", "")⟩,
         ⟨[], [⟨"fav1", "l1", "u1"⟩]⟩, [RemoteOp.selectFavorite "l1" "u1"], [])
    ∧ (⟨some ⟨"u1", "u1@example.com"⟩, [], [], false, false,
        ("", "")⟩ : AppState).favorites.any (linkMatch "l1") = false
    ∧ (⟨[], [⟨"fav1", "l1", "u1"⟩]⟩ : RemoteStore).favorites.any
        (pairMatch "l1" "u1") = true :=
  toggleFavorite_lookup_hit_noop _ _ ⟨"u1", "u1@example.com"⟩ "l1" okOutcome "f9"
    rfl (by decide) rfl (by decide)

/-- C3 counterexample: at this concrete input the insert fails with the
uniqueness-violation code and the resulting notification goes through the
`toast.error` channel — it is a hard-error toast, not a soft informational
one (`all (fun t => !(t.isErr))` is `false` on the reported toasts). -/
theorem toggleFavorite_unique_conflict_err_channel :
    ((toggleFavorite ⟨some ⟨"u1", "a@x.com"⟩, [], [], false, false, ("", "")⟩
        ⟨[], [⟨"fav1", "l1", "u1"⟩]⟩ "l1" ⟨true, false, true⟩ "f9").2.2.2
      = [Toast.err "Already in favorites"])
    ∧ ((toggleFavorite ⟨some ⟨"u1", "a@x.com"⟩, [], [], false, false, ("", "")⟩
        ⟨[], [⟨"fav1", "l1", "u1"⟩]⟩ "l1" ⟨true, false, true⟩ "f9").2.2.2.all
        (fun t => !(t.isErr)) = false) := by
  decide

/-- C3 (amended): whenever the favorite insert fails with the
uniqueness-violation error code, a specific message `'Already in favorites'`
is reported — through the `toast.error` channel, not as a soft informational
message — instead of the generic failure message, and neither the local
favorites cache nor the remote store is mutated. -/
theorem toggleFavorite_unique_conflict_specific (st : AppState)
    (store : RemoteStore) (s : Session) (linkId : String)
    (oc : ToggleOutcome) (fid : String)
    (hs : st.session = some s)
    (hl : st.favorites.any (linkMatch linkId) = false)
    (hlk : oc.lookupOk = false)
    (hins : oc.insertOk = true)
    (hex : store.favorites.any (pairMatch linkId s.userId) = true) :
    toggleFavorite st store linkId oc fid
      = (st, store,
         [RemoteOp.selectFavorite linkId s.userId, RemoteOp.insertFavorite linkId s.userId],
         [Toast.err "Already in favorites"]) := by
  unfold toggleFavorite
  rw [hs]
  simp [hl, hlk, hins, hex]

theorem toggleFavorite_unique_conflict_specific_witness :
    toggleFavorite ⟨some ⟨"u1", "a@x.com"⟩, [], [], false, false, ("", "")⟩
        ⟨[], [⟨"fav1", "l1", "u1"⟩]⟩ "l1" ⟨true, false, true⟩ "f8"
      = (⟨some ⟨"u1", "a@x.com"⟩, [], [], false, false, ("", "")⟩,
         ⟨[], [⟨"fav1", "l1", "u1"⟩]⟩,
         [RemoteOp.selectFavorite "l1" "u1", RemoteOp.insertFavorite "l1" "u1"],
         [Toast.err "Already in favorites"]) :=
  toggleFavorite_unique_conflict_specific _ _ ⟨"u1", "a@x.com"⟩ "l1"
    ⟨true, false, true⟩ "f8" rfl (by decide) rfl rfl (by decide)

/-- The `if (!session) return` guard of `fetchFavorites` (App.tsx line 78):
invoked with an absent session it issues no remote call, produces no toast,
and returns the state unchanged. This is what the auth-change subscription's
stale first-render closure hits on every invocation. -/
theorem fetchFavorites_no_session (st : AppState) (store : RemoteStore)
    (ok : Bool) (h : st.session = none) :
    fetchFavorites st store ok = (st, [], []) := by
  unfold fetchFavorites
  rw [h]

/-- C4 counterexample: on a sign-in transition for a user whose remote
favorites are nonempty, the handler issues no `selectFavorites` call and the
local favorite cache stays empty — the favorites refresh the claim asserts
never happens (the subscription callback holds the first render's
`fetchFavorites`, whose closed-over session is `null`); and a transition to
an absent session leaves both nonempty local caches untouched — the handler
does not clear them. -/
theorem onAuthChange_no_favorites_refresh_and_no_clear :
    ((onAuthChange ⟨none, [], [], false, false, ("", "")⟩
        ⟨[], [⟨"fav1", "l1", "u1"⟩]⟩ (some ⟨"u1", "a@x.com"⟩) true).1.favorites = []
      ∧ (onAuthChange ⟨none, [], [], false, false, ("", "")⟩
        ⟨[], [⟨"fav1", "l1", "u1"⟩]⟩ (some ⟨"u1", "a@x.com"⟩) true).2.1
        = [RemoteOp.selectLinks])
    ∧ ((onAuthChange
        ⟨some ⟨"u1", "a@x.com"⟩, [⟨"l1", "name", "url", "a@x.com", 5⟩],
         [⟨"fav1", "l1", "u1"⟩], false, false, ("", "")⟩
        ⟨[], []⟩ none true).1.links ≠ []
      ∧ (onAuthChange
        ⟨some ⟨"u1", "a@x.com"⟩, [⟨"l1", "name", "url", "a@x.com", 5⟩],
         [⟨"fav1", "l1", "u1"⟩], false, false, ("", "")⟩
        ⟨[], []⟩ none true).1.favorites ≠ []) := by
  decide

/-- C4 (amended): on a session transition with a session present, the handler
records the session and triggers a refresh of the link cache only; the
favorite-cache refresh it invokes is a permanent no-op (the subscription
callback holds the first render's `fetchFavorites`, whose closed-over session
is `null`, so its guard returns immediately), leaving the favorite cache
untouched and issuing no `selectFavorites` call. On a transition to an absent
session the handler only records the absent session and leaves both caches
untouched — the caches are cleared only by the explicit sign-out flow
(`handleSignOut`), not by the session-change handler. -/
theorem onAuthChange_links_only_and_signout_clear (st : AppState)
    (store : RemoteStore) (s : Session) (lOk : Bool) :
    ((onAuthChange st store (some s) true).1.links = fetchLinksResult store
      ∧ (onAuthChange st store (some s) lOk).1.session = some s
      ∧ (onAuthChange st store (some s) lOk).1.favorites = st.favorites
      ∧ (onAuthChange st store (some s) lOk).2.1 = [RemoteOp.selectLinks])
    ∧ ((onAuthChange st store none lOk).1.session = none
      ∧ (onAuthChange st store none lOk).1.links = st.links
      ∧ (onAuthChange st store none lOk).1.favorites = st.favorites
      ∧ (onAuthChange st store none lOk).2.1 = [])
    ∧ ((handleSignOut st).1.links = [] ∧ (handleSignOut st).1.favorites = []) := by
  refine ⟨⟨?_, ?_, ?_, ?_⟩, ⟨rfl, rfl, rfl, rfl⟩, rfl, rfl⟩ <;>
    cases lOk <;> simp [onAuthChange, fetchLinks]

/-- C5: a `deleteLink` call whose `creatorEmail` differs from the current
session's email reports `'You can only delete your own links'`, issues no
remote call, and changes neither the local state nor the store. -/
theorem deleteLink_unauthorized_noop (st : AppState) (store : RemoteStore)
    (s : Session) (id ce : String) (ok : Bool)
    (hs : st.session = some s) (hne : s.email ≠ ce) :
    deleteLink st store id ce ok
      = (st, store, [], [Toast.err "You can only delete your own links"]) := by
  have hgate : st.session.map Session.email ≠ some ce := by
    rw [hs]
    simpa using hne
  unfold deleteLink
  rw [if_pos hgate]

theorem deleteLink_unauthorized_noop_witness :
    deleteLink ⟨some ⟨"u1", "me@x.com"⟩, [⟨"l1", "name", "url", "other@x.com", 5⟩],
        [], false, false, ("", "")⟩
        ⟨[⟨"l1", "name", "url", "other@x.com", 5⟩], []⟩ "l1" "other@x.com" true
      = (⟨some ⟨"u1", "me@x.com"⟩, [⟨"l1", "name", "url", "other@x.com", 5⟩],
          [], false, false, ("", "")⟩,
         ⟨[⟨"l1", "name", "url", "other@x.com", 5⟩], []⟩, [],
         [Toast.err "You can only delete your own links"]) :=
  deleteLink_unauthorized_noop _ _ ⟨"u1", "me@x.com"⟩ "l1" "other@x.com" true
    rfl (by decide)

/-- C6: `addLink` without a session rejects with the authentication-required
message and issues no remote call; an acknowledged insert updates the link
cache by a full `fetchLinks` of the server-ordered rows (including the new
one), not by optimistic local insertion. -/
theorem addLink_auth_gate_and_refetch (st : AppState) (store : RemoteStore)
    (s : Session) (name url sid : String) (t : Nat) (iOk fOk : Bool) :
    (addLink { st with session := none } store name url iOk sid t fOk
        = ({ st with session := none }, store, [], [Toast.err "Please sign in first"]))
    ∧ ((addLink { st with session := some s } store name url true sid t true).2.2.1
        = [RemoteOp.insertLink name url s.email, RemoteOp.selectLinks]
      ∧ (addLink { st with session := some s } store name url true sid t true).1.links
        = fetchLinksResult { store with links := store.links ++ [Link.mk sid name url s.email t] }) := by
  refine ⟨rfl, ?_, ?_⟩ <;> simp [addLink, fetchLinks]

/-- C7: a successful `fetchLinks` over links created at times `T1 < T2 < T3`
leaves the link cache ordered by creation time descending: `[T3, T2, T1]`. -/
theorem fetchLinks_orders_desc (st : AppState) (a b c : Link)
    (favs : List Favorite)
    (h1 : a.created_at < b.created_at) (h2 : b.created_at < c.created_at) :
    (fetchLinks st ⟨[a, b, c], favs⟩ true).1.links = [c, b, a] := by
  have hbc : ¬ linkDesc b c := by simp only [linkDesc]; omega
  have hac : ¬ linkDesc a c := by simp only [linkDesc]; omega
  have hab : ¬ linkDesc a b := by simp only [linkDesc]; omega
  simp [fetchLinks, fetchLinksResult, List.insertionSort, List.orderedInsert,
    hbc, hac, hab]

theorem fetchLinks_orders_desc_witness :
    (fetchLinks ⟨none, [], [], true, false, ("", "")⟩
        ⟨[⟨"l1", "a", "u", "e", 1⟩, ⟨"l2", "b", "u", "e", 2⟩, ⟨"l3", "c", "u", "e", 3⟩], []⟩
        true).1.links
      = [⟨"l3", "c", "u", "e", 3⟩, ⟨"l2", "b", "u", "e", 2⟩, ⟨"l1", "a", "u", "e", 1⟩] :=
  fetchLinks_orders_desc _ ⟨"l1", "a", "u", "e", 1⟩ ⟨"l2", "b", "u", "e", 2⟩
    ⟨"l3", "c", "u", "e", 3⟩ [] (by decide) (by decide)

/-- C8: a `fetchLinks` that fails at transport level leaves the prior link
cache untouched and reports the recoverable error toast; and whether it
succeeds or fails, the loading flag is cleared on completion. -/
theorem fetchLinks_failure_frame_and_loading (st : AppState) (store : RemoteStore) :
    ((fetchLinks st store false).1.links = st.links
      ∧ (fetchLinks st store false).2.2 = [Toast.err "Error fetching links"])
    ∧ ∀ ok : Bool, (fetchLinks st store ok).1.loading = false := by
  refine ⟨⟨rfl, rfl⟩, ?_⟩
  intro ok
  cases ok <;> rfl

/-- C9: after `signOut` completes, both the link cache and the favorite cache
are empty, whatever they held before. -/
theorem handleSignOut_clears_caches (st : AppState) :
    (handleSignOut st).1.links = [] ∧ (handleSignOut st).1.favorites = [] :=
  ⟨rfl, rfl⟩

end LinkApp
